import Mathlib

/-!
Verification of the electron-json-rpc protocol core against its source.

The development shallowly embeds:
* `src/error.ts` — the JSON-RPC error values and conversions;
* the `RpcServer` class (dispatch core, stream producer, subscription
  registry) as published in the repository;
* the preload call state machine of `src/preload.ts` (`createApiObject.call`);
* the renderer client timeout handling of `src/renderer/client.ts`.

JavaScript `Map`s are embedded as association lists keyed by `String`,
JavaScript `Set`s of window ids as duplicate-free `List ℕ` values, and
promises/handlers as total functions into `Except`.
-/

/-- A JSON value, as carried in request params, results and error data. -/
inductive JsonValue : Type where
  | null : JsonValue
  | bool : Bool → JsonValue
  | num : Int → JsonValue
  | str : String → JsonValue
  | arr : List JsonValue → JsonValue
  | obj : List (String × JsonValue) → JsonValue
  deriving Repr

/-- A JSON-RPC id: a string or a number (`id: string | number`). -/
inductive RpcId : Type where
  | str : String → RpcId
  | num : Int → RpcId
  deriving Repr, DecidableEq

/-- Wire request frame `{jsonrpc, id?, method, params?}`.  `id = none` models
`undefined`/`null` (a notification); `method = none` models a missing or
non-string method field; `params = none` models `undefined`. -/
structure JsonRpcRequest : Type where
  id : Option RpcId
  method : Option String
  params : Option JsonValue

/-- Wire error value `{code, message, data?}` from `src/error.ts`. -/
structure JsonRpcError : Type where
  code : Int
  message : String
  data : Option JsonValue
  deriving Repr

/-- Wire response frame `{jsonrpc, id, result?, error?}`.  `id = none` models
the `null` id used when the request had no valid id. -/
structure JsonRpcResponse : Type where
  id : Option RpcId
  result : Option JsonValue
  error : Option JsonRpcError

/-- `createJsonRpcError(code, message, data?)` from `src/error.ts`. -/
def createJsonRpcError (code : Int) (message : String) (data : Option JsonValue) :
    JsonRpcError :=
  { code := code, message := message, data := data }

/-- The predefined error creators `errors.*` from `src/error.ts`.  Codes are
the reserved JSON-RPC codes from `JsonRpcErrorCode`. -/
def errorsParseError (data : Option JsonValue) : JsonRpcError :=
  createJsonRpcError (-32700) "Parse error" data

/-- `errors.invalidRequest` from `src/error.ts`. -/
def errorsInvalidRequest (data : Option JsonValue) : JsonRpcError :=
  createJsonRpcError (-32600) "Invalid Request" data

/-- `errors.methodNotFound(method?)` from `src/error.ts`: the message is
`Method not found` followed by `: <method>` when `method` is truthy
(present and non-empty). -/
def errorsMethodNotFound (method : Option String) : JsonRpcError :=
  createJsonRpcError (-32601)
    ("Method not found" ++
      (match method with
       | some m => if m = "" then "" else ": " ++ m
       | none => ""))
    none

/-- `errors.invalidParams` from `src/error.ts`. -/
def errorsInvalidParams (data : Option JsonValue) : JsonRpcError :=
  createJsonRpcError (-32602) "Invalid params" data

/-- `errors.internalError` from `src/error.ts`. -/
def errorsInternalError (data : Option JsonValue) : JsonRpcError :=
  createJsonRpcError (-32603) "Internal error" data

/-- A value thrown by a handler or validator: either an object satisfying
`isJsonRpcError`, a JS `Error` instance (name and message), or any other
value. -/
inductive ThrownValue : Type where
  | rpcErr : JsonRpcError → ThrownValue
  | jsErr : String → String → ThrownValue
  | other : JsonValue → ThrownValue

/-- `errorToJsonRpc(error)` from `src/error.ts`: JSON-RPC errors pass
through; `Error` instances become InternalError with the message and the
error name as data; anything else becomes InternalError "Unknown error". -/
def errorToJsonRpc : ThrownValue → JsonRpcError
  | .rpcErr e => e
  | .jsErr name msg => { code := -32603, message := msg, data := some (.str name) }
  | .other v => { code := -32603, message := "Unknown error", data := some v }

/-- A registered handler: total model of `await handler(...args)`, the
exception path carried in `Except`. -/
def RpcHandler : Type := List JsonValue → Except ThrownValue JsonValue

/-- A registered validator: total model of `await validate(args)`. -/
def RpcValidator : Type := List JsonValue → Except ThrownValue Unit

/-- A `StoredMethod` entry of the server's method table. -/
structure StoredMethod : Type where
  handler : RpcHandler
  validate : Option RpcValidator
  isStream : Bool

/-- Association-list embedding of a JS `Map` keyed by strings: `get`. -/
def mapGet {α : Type} : List (String × α) → String → Option α
  | [], _ => none
  | (k, v) :: rest, key => if k = key then some v else mapGet rest key

/-- Association-list embedding of a JS `Map`: `set` replaces the binding of
an existing key and otherwise appends a new one. -/
def mapSet {α : Type} : List (String × α) → String → α → List (String × α)
  | [], key, v => [(key, v)]
  | (k, w) :: rest, key, v =>
      if k = key then (key, v) :: rest else (k, w) :: mapSet rest key v

/-- Association-list embedding of a JS `Map`: `delete` removes the key. -/
def mapDelete {α : Type} (m : List (String × α)) (key : String) :
    List (String × α) :=
  m.filter (fun e => e.1 ≠ key)

/-- Param normalization from `RpcServer.processRequest`: `undefined` gives
`[]`, an array is used as-is, and any other value (named params) is wrapped
as the single-element list `[params]`. -/
def normalizeParams : Option JsonValue → List JsonValue
  | none => []
  | some (.arr xs) => xs
  | some v => [v]

/-- Shape validation from `RpcServer.processRequest`:
`!method || typeof method !== "string"` — absent or empty method is
invalid. -/
def methodFieldValid : Option String → Bool
  | none => false
  | some m => m ≠ ""

/-- The part of `RpcServer.processRequest` after params normalization:
run the validator when present, then either answer a stream request with the
fresh stream id or run the handler, converting a thrown value through
`errorToJsonRpc`. -/
def dispatchStored (rid : Option RpcId) (freshStreamId : String)
    (sm : StoredMethod) (args : List JsonValue) : JsonRpcResponse :=
  let afterValidate : JsonRpcResponse :=
    if sm.isStream then
      { id := rid, result := some (.obj [("streamId", .str freshStreamId)]), error := none }
    else
      match sm.handler args with
      | .ok v => { id := rid, result := some v, error := none }
      | .error e => { id := rid, result := none, error := some (errorToJsonRpc e) }
  match sm.validate with
  | some vfn =>
      match vfn args with
      | .ok _ => afterValidate
      | .error ve =>
          { id := rid, result := none,
            error := some (errorsInvalidParams
              (match ve with
               | .jsErr _ msg => some (.str msg)
               | _ => none)) }
  | none => afterValidate

/-- `RpcServer.processRequest(request, sender?)`: validate the request shape,
look the method up, normalize params, validate, dispatch.  `freshStreamId` is
the stream id `generateStreamId()` would mint for a stream method. -/
def processRequest (methods : List (String × StoredMethod)) (freshStreamId : String)
    (req : JsonRpcRequest) : JsonRpcResponse :=
  if ¬ methodFieldValid req.method then
    { id := req.id, result := none, error := some (errorsInvalidRequest none) }
  else
    match req.method with
    | none => { id := req.id, result := none, error := some (errorsInvalidRequest none) }
    | some m =>
        match mapGet methods m with
        | none => { id := req.id, result := none, error := some (errorsMethodNotFound (some m)) }
        | some sm => dispatchStored req.id freshStreamId sm (normalizeParams req.params)

/-- `RpcServer.handleMessage(_event, request)`: process the request, then
reply only when the request id is neither `undefined` nor `null`.  The
returned value is the response frame sent back, `none` when no frame is
sent. -/
def handleMessage (methods : List (String × StoredMethod)) (freshStreamId : String)
    (req : JsonRpcRequest) : Option JsonRpcResponse :=
  let response := processRequest methods freshStreamId req
  if req.id.isSome then some response else none

/-- A JS `Set` of window ids, embedded as a duplicate-free list in insertion
order. -/
abbrev WinSet : Type := List ℕ

/-- JS `Set.prototype.add`: a no-op when the element is already present,
otherwise appended. -/
def WinSet.add (s : WinSet) (w : ℕ) : WinSet :=
  if w ∈ s then s else s ++ [w]

/-- JS `Set.prototype.delete`. -/
def WinSet.del (s : WinSet) (w : ℕ) : WinSet :=
  List.erase s w

/-- JS `Set.prototype.has`. -/
def WinSet.hasId (s : WinSet) (w : ℕ) : Bool :=
  decide (w ∈ s)

/-- JS `Set.prototype.size`. -/
def WinSet.size (s : WinSet) : ℕ :=
  List.length s

/-- The `eventSubscribers` map of `RpcServer`: event name to set of window
ids. -/
abbrev SubRegistry : Type := List (String × WinSet)

/-- `RpcServer.subscribeToEvent(eventName, windowId)`: create the set on
first subscribe, then add the window id. -/
def subscribeToEvent (r : SubRegistry) (eventName : String) (windowId : ℕ) :
    SubRegistry :=
  let r1 : SubRegistry :=
    if (mapGet r eventName).isSome then r else mapSet r eventName ([] : WinSet)
  match mapGet r1 eventName with
  | some s => mapSet r1 eventName (s.add windowId)
  | none => r1

/-- `RpcServer.unsubscribeFromEvent(eventName, windowId)`: remove the window
id; when the set becomes empty the event's entry is deleted. -/
def unsubscribeFromEvent (r : SubRegistry) (eventName : String) (windowId : ℕ) :
    SubRegistry :=
  match mapGet r eventName with
  | none => r
  | some s =>
      let s1 := s.del windowId
      if s1.size = 0 then mapDelete r eventName else mapSet r eventName s1

/-- Event-bus message `{type, eventName, data?}` from `src/event.ts`. -/
structure EventMessage : Type where
  type : String
  eventName : String
  data : Option JsonValue

/-- `RpcServer.publish(eventName, data?)`: no subscribers (or an empty set)
sends nothing; otherwise every connected web contents whose id is in the
subscriber set is sent the event frame.  The returned list records the sends
`(windowId, message)` the call performs, in iteration order over
`webContents.getAllWebContents()`. -/
def publish (r : SubRegistry) (connected : List ℕ) (eventName : String)
    (data : Option JsonValue) : List (ℕ × EventMessage) :=
  match mapGet r eventName with
  | none => []
  | some s =>
      if s.size = 0 then []
      else
        (connected.filter (fun wid => s.hasId wid)).map
          (fun wid => (wid, { type := "event", eventName := eventName, data := data }))

/-- `RpcServer.getEventSubscribers()`: event name to subscriber count. -/
def getEventSubscribers (r : SubRegistry) : List (String × ℕ) :=
  r.map (fun e => (e.1, e.2.size))

/-- A stream frame, as built by `createStreamChunk(streamId, type, data?)`
from `src/stream.ts`, with the stream id left implicit (all frames of one
producer run carry the same id). -/
inductive StreamFrame : Type where
  | chunk : JsonValue → StreamFrame
  | endFrame : StreamFrame
  | errorFrame : JsonRpcError → StreamFrame
  deriving Repr

/-- The outcome of `await handler(...args)` in `executeStreamHandler`: the
handler throws, returns a plain (non-`ReadableStream`) value, or returns a
`ReadableStream`.  A `ReadableStream` is modelled by the values its reader
yields in order, then either normal exhaustion (`none`) or a read that
throws (`some e`). -/
inductive HandlerStreamResult : Type where
  | thrown : ThrownValue → HandlerStreamResult
  | plain : JsonValue → HandlerStreamResult
  | stream : List JsonValue → Option ThrownValue → HandlerStreamResult

/-- The read loop of `executeStreamHandler`: each value read becomes a
`chunk` frame; normal exhaustion sends one `end` frame; a read that throws
sends one `error` frame via `errorToJsonRpc`. -/
def drainReader : List JsonValue → Option ThrownValue → List StreamFrame
  | [], none => [.endFrame]
  | [], some e => [.errorFrame (errorToJsonRpc e)]
  | v :: rest, pe => .chunk v :: drainReader rest pe

/-- `RpcServer.executeStreamHandler(streamId, handler, args, sendChunk)`:
the frames it sends, paired with the value its promise rejects with when the
handler itself throws (in which case nothing was sent). -/
def executeStreamHandler : HandlerStreamResult → List StreamFrame × Option ThrownValue
  | .thrown e => ([], some e)
  | .plain v => ([.chunk v, .endFrame], none)
  | .stream items pe => (drainReader items pe, none)

/-- The full frame sequence one stream handle id receives from
`RpcServer.handleStreamRequest`: the frames `executeStreamHandler` sends,
followed by the `error` frame its `.catch` sends when the handler threw. -/
def handleStreamRequestFrames (res : HandlerStreamResult) : List StreamFrame :=
  match executeStreamHandler res with
  | (frames, some e) => frames ++ [.errorFrame (errorToJsonRpc e)]
  | (frames, none) => frames

/-- The name of the implicitly registered health-check method. -/
def HEALTH_CHECK_METHOD : String := "__rpc_health__"

/-- The `RpcServer` state: method table, active-stream ids, event
subscribers and the listening flag. -/
structure RpcServer : Type where
  methods : List (String × StoredMethod)
  streams : List String
  eventSubscribers : SubRegistry
  isListening : Bool

/-- `RpcServer.register(name, handler, options?)`. -/
def RpcServer.register (s : RpcServer) (name : String) (handler : RpcHandler)
    (validate : Option RpcValidator) : RpcServer :=
  let sm : StoredMethod := { handler := handler, validate := validate, isStream := false }
  { s with methods := mapSet s.methods name sm }

/-- `RpcServer.registerStream(name, handler, options?)`. -/
def RpcServer.registerStream (s : RpcServer) (name : String) (handler : RpcHandler)
    (validate : Option RpcValidator) : RpcServer :=
  let sm : StoredMethod := { handler := handler, validate := validate, isStream := true }
  { s with methods := mapSet s.methods name sm }

/-- `RpcServer.unregister(name)`. -/
def RpcServer.unregister (s : RpcServer) (name : String) : RpcServer :=
  { s with methods := mapDelete s.methods name }

/-- `RpcServer.has(name)`. -/
def RpcServer.hasMethod (s : RpcServer) (name : String) : Bool :=
  (mapGet s.methods name).isSome

/-- The handler registered for the health-check method by the constructor:
`() => true`. -/
def healthHandler : RpcHandler := fun _ => .ok (.bool true)

/-- The `RpcServer` constructor: empty tables, not listening, then the
implicit `register(HEALTH_CHECK_METHOD, () => true)` guarded by
`methods.has`. -/
def newRpcServer : RpcServer :=
  let base : RpcServer :=
    { methods := [], streams := [], eventSubscribers := [], isListening := false }
  if (mapGet base.methods HEALTH_CHECK_METHOD).isSome then base
  else base.register HEALTH_CHECK_METHOD healthHandler none

/-- `RpcServer.listen()`: idempotently attach the listeners. -/
def RpcServer.listen (s : RpcServer) : RpcServer :=
  if s.isListening then s else { s with isListening := true }

/-- `RpcServer.dispose()`: a no-op unless listening; otherwise detach the
listeners and clear the method table, the streams and the subscriber
registry. -/
def RpcServer.dispose (s : RpcServer) : RpcServer :=
  if ¬ s.isListening then s
  else { methods := [], streams := [], eventSubscribers := [], isListening := false }

/-- `RpcServer.subscribeToEvent` acting on the server state. -/
def RpcServer.subscribe (s : RpcServer) (eventName : String) (windowId : ℕ) :
    RpcServer :=
  { s with eventSubscribers := subscribeToEvent s.eventSubscribers eventName windowId }

/-- `RpcServer.unsubscribeFromEvent` acting on the server state. -/
def RpcServer.unsubscribe (s : RpcServer) (eventName : String) (windowId : ℕ) :
    RpcServer :=
  { s with eventSubscribers := unsubscribeFromEvent s.eventSubscribers eventName windowId }

/-- How a pending call settled: the listener resolved with a result,
the listener rejected with the response's error message, or the timeout
callback rejected with the plain `RPC timeout: <method>` error. -/
inductive Settlement : Type where
  | resolved : JsonValue → Settlement
  | rejectedError : String → Settlement
  | rejectedTimeout : Settlement
  deriving Repr

/-- An event delivered to a pending call of `createApiObject.call` in
`src/preload.ts`: a response frame arriving on the RPC channel (with its id
and either an error message or a result), or the armed `setTimeout` firing. -/
inductive CallEvent : Type where
  | response : String → Option String → JsonValue → CallEvent
  | timeoutFire : CallEvent

/-- The observable state of one pending call of `createApiObject.call`:
whether the response listener is still attached, whether the `setTimeout`
timer is still armed (not fired and not cleared), and the log of
resolve/reject executions in order. -/
structure CallState : Type where
  listenerActive : Bool
  timerActive : Bool
  settlements : List Settlement

/-- The state just after `createApiObject.call` registered the listener,
armed the timer and sent the request. -/
def initialCallState : CallState :=
  { listenerActive := true, timerActive := true, settlements := [] }

/-- One event processed against `createApiObject.call`'s closures, for the
call with id `myId`.  The timeout callback (it can only run while the timer
is armed) removes the listener and rejects with the plain timeout error; the
listener (it can only run while attached) ignores other ids, and on its own
id clears the timer, removes itself, and rejects on `response.error` or
resolves on `response.result`. -/
def callStep (myId : String) (s : CallState) : CallEvent → CallState
  | .timeoutFire =>
      if s.timerActive then
        { listenerActive := false, timerActive := false,
          settlements := s.settlements ++ [.rejectedTimeout] }
      else s
  | .response rid err result =>
      if s.listenerActive then
        if rid = myId then
          { listenerActive := false, timerActive := false,
            settlements := s.settlements ++
              [match err with
               | some msg => .rejectedError msg
               | none => .resolved result] }
        else s
      else s

/-- Run a sequence of events against one pending call. -/
def runCall (myId : String) (events : List CallEvent) : CallState :=
  events.foldl (callStep myId) initialCallState

/-- An event that settles the call with id `myId`: its timer firing or a
response frame carrying its id. -/
def triggersCall (myId : String) : CallEvent → Bool
  | .timeoutFire => true
  | .response rid _ _ => rid = myId

/-- The effective delay `createRpcClient` arms its `setTimeout` with, from
`const timeout = 30000, ... = options` in `src/renderer/client.ts`: the
default applies exactly when the option is `undefined`. -/
def rendererTimerDuration (timeoutOption : Option Int) : Int :=
  timeoutOption.getD 30000

/-- `RpcTimeoutError` from `src/error.ts`. -/
structure RpcTimeoutError : Type where
  name : String
  message : String
  timeout : Int

/-- The `RpcTimeoutError` constructor. -/
def mkRpcTimeoutError (timeout : Int) : RpcTimeoutError :=
  { name := "RpcTimeoutError",
    message := "RPC call timed out after " ++ toString timeout ++ "ms",
    timeout := timeout }

/-- `RpcConnectionError` from `src/error.ts`. -/
structure RpcConnectionError : Type where
  name : String
  message : String
  code : Option String

/-- The `RpcConnectionError` constructor. -/
def mkRpcConnectionError (message : String) (code : Option String) :
    RpcConnectionError :=
  { name := "RpcConnectionError", message := message, code := code }

/-- The outcome a caller of the layered renderer/preload call path
observes. -/
inductive LayeredOutcome : Type where
  | ok : JsonValue → LayeredOutcome
  | plainError : String → LayeredOutcome
  | rpcTimeout : RpcTimeoutError → LayeredOutcome

/-- What the matching response carries when it arrives. -/
inductive WireReply : Type where
  | result : JsonValue → WireReply
  | errorMsg : String → WireReply

/-- The preload layer promise of `createApiObject.call` in
`src/preload.ts`: a fixed 30000 ms `setTimeout` races the matching response.
`arrival = some t` means the matching response frame arrives `t` ms after
the call; `none` means it never arrives.  Returns the settlement time and
value: a response strictly inside the window settles it, otherwise the timer
rejects with the plain `Error` whose message is `RPC timeout: <method>`. -/
def preloadCallOutcome (method : String) (arrival : Option ℕ) (reply : WireReply) :
    ℕ × LayeredOutcome :=
  match arrival with
  | some t =>
      if t < 30000 then
        (t, match reply with
            | .result v => .ok v
            | .errorMsg m => .plainError m)
      else (30000, .plainError ("RPC timeout: " ++ method))
  | none => (30000, .plainError ("RPC timeout: " ++ method))

/-- The renderer layer of `createRpcClient().call` in
`src/renderer/client.ts`: its own `setTimeout(timeout)` races the preload
promise; whichever settles first wins — the renderer timer rejecting with
`new RpcTimeoutError(timeout)`, a preload settlement clearing the timer and
propagating as-is. -/
def rendererCallOutcome (timeoutMs : ℕ) (method : String) (arrival : Option ℕ)
    (reply : WireReply) : LayeredOutcome :=
  let settled := preloadCallOutcome method arrival reply
  if settled.1 < timeoutMs then settled.2
  else .rpcTimeout (mkRpcTimeoutError (Int.ofNat timeoutMs))

/-- Modelled from the spec: the connection-loss transition of the
client-side Correlation Engine (the queued/retrying client layer whose
source is not under `src/`; only the `RpcConnectionError` declaration in
`src/error.ts` is).  On the explicit connection-loss signal, every currently
pending entry settles failure with a Connection error, as one bulk operation
over the whole pending table, which is left empty. -/
def connectionLost (message : String) (code : Option String)
    (pending : List String) : List (String × RpcConnectionError) × List String :=
  (pending.map (fun cid => (cid, mkRpcConnectionError message code)), [])

theorem mapGet_mapSet {α : Type} (m : List (String × α)) (k k' : String) (v : α) :
    mapGet (mapSet m k v) k' = if k = k' then some v else mapGet m k' := by
  induction m with
  | nil =>
      by_cases h : k = k' <;> simp [mapSet, mapGet, h]
  | cons e rest ih =>
      obtain ⟨k0, v0⟩ := e
      by_cases h0 : k0 = k
      · subst h0
        by_cases h1 : k0 = k' <;> simp [mapSet, mapGet, h1]
      · by_cases h1 : k0 = k'
        · subst h1
          have hk : k ≠ k0 := fun h => h0 h.symm
          simp [mapSet, mapGet, h0, hk]
        · simp [mapSet, mapGet, h0, h1, ih]

theorem mapSet_of_mapGet {α : Type} (m : List (String × α)) (k : String) (v : α)
    (h : mapGet m k = some v) : mapSet m k v = m := by
  induction m with
  | nil => simp [mapGet] at h
  | cons e rest ih =>
      obtain ⟨k0, v0⟩ := e
      by_cases h0 : k0 = k
      · subst h0
        simp [mapGet] at h
        simp [mapSet, h]
      · simp [mapGet, h0] at h
        simp [mapSet, h0, ih h]

theorem mapGet_mapDelete {α : Type} (m : List (String × α)) (k k' : String) :
    mapGet (mapDelete m k) k' = if k' = k then none else mapGet m k' := by
  induction m with
  | nil => simp [mapDelete, mapGet]
  | cons e rest ih =>
      obtain ⟨k0, v0⟩ := e
      by_cases h0 : k0 = k
      · subst h0
        by_cases h1 : k0 = k'
        · subst h1
          simpa [mapDelete, mapGet] using ih
        · have hk : k' ≠ k0 := fun h => h1 h.symm
          have hrest : mapGet (mapDelete rest k0) k' = mapGet rest k' := by
            simpa [hk] using ih
          simp [mapDelete, mapGet, hk, h1, hrest] at ih ⊢
          simpa [mapDelete] using hrest
      · by_cases h1 : k0 = k'
        · subst h1
          have hk : ¬ k0 = k := h0
          have hk2 : k0 ≠ k := h0
          simp [mapDelete, mapGet, hk, hk2]
        · simpa [mapDelete, mapGet, h0, h1] using ih

theorem WinSet.mem_add_self (s : WinSet) (w : ℕ) : w ∈ s.add w := by
  by_cases h : w ∈ s <;> simp [WinSet.add, h]

theorem WinSet.add_of_mem {s : WinSet} {w : ℕ} (h : w ∈ s) : s.add w = s := by
  simp [WinSet.add, h]

theorem WinSet.del_of_not_mem {s : WinSet} {w : ℕ} (h : w ∉ s) : s.del w = s :=
  List.erase_of_not_mem h

theorem callStep_inactive (myId : String) (s : CallState) (e : CallEvent)
    (hl : s.listenerActive = false) (ht : s.timerActive = false) :
    callStep myId s e = s := by
  cases e <;> simp [callStep, hl, ht]

theorem foldl_callStep_inactive (myId : String) (events : List CallEvent)
    (s : CallState) (hl : s.listenerActive = false) (ht : s.timerActive = false) :
    events.foldl (callStep myId) s = s := by
  induction events with
  | nil => rfl
  | cons e rest ih => simp [List.foldl, callStep_inactive myId s e hl ht, ih]

/-- The reachable states of one pending call: still armed with no settlement
yet, or fully torn down with exactly one settlement. -/
def CallStateOk (s : CallState) : Prop :=
  (s.listenerActive = true ∧ s.timerActive = true ∧ s.settlements = []) ∨
  (s.listenerActive = false ∧ s.timerActive = false ∧ ∃ x, s.settlements = [x])

theorem callStep_ok (myId : String) (s : CallState) (e : CallEvent)
    (h : CallStateOk s) : CallStateOk (callStep myId s e) := by
  rcases h with ⟨hl, ht, hs⟩ | ⟨hl, ht, x, hs⟩
  · cases e with
    | timeoutFire =>
        right
        simp [callStep, ht, hs]
    | response rid err v =>
        by_cases hr : rid = myId
        · right
          simp [callStep, hl, hr, hs]
        · left
          simp [callStep, hl, hr, hs, ht]
  · rw [callStep_inactive myId s e hl ht]
    exact Or.inr ⟨hl, ht, x, hs⟩

theorem foldl_callStep_ok (myId : String) (events : List CallEvent) :
    ∀ s : CallState, CallStateOk s → CallStateOk (events.foldl (callStep myId) s) := by
  induction events with
  | nil => exact fun s h => h
  | cons e rest ih =>
      intro s h
      exact ih (callStep myId s e) (callStep_ok myId s e h)

theorem runCall_ok (myId : String) (events : List CallEvent) :
    CallStateOk (runCall myId events) :=
  foldl_callStep_ok myId events initialCallState (Or.inl ⟨rfl, rfl, rfl⟩)

theorem foldl_callStep_trigger (myId : String) (events : List CallEvent) :
    ∀ s : CallState, s.listenerActive = true → s.timerActive = true →
      s.settlements = [] → (∃ e ∈ events, triggersCall myId e = true) →
      (events.foldl (callStep myId) s).settlements.length = 1 := by
  induction events with
  | nil =>
      intro s _ _ _ htrig
      simp at htrig
  | cons e rest ih =>
      intro s hl ht hs htrig
      by_cases he : triggersCall myId e = true
      · have hstep : ∃ x, (callStep myId s e).listenerActive = false ∧
            (callStep myId s e).timerActive = false ∧
            (callStep myId s e).settlements = [x] := by
          cases e with
          | timeoutFire => exact ⟨.rejectedTimeout, by simp [callStep, ht, hs]⟩
          | response rid err v =>
              have hr : rid = myId := by simpa [triggersCall] using he
              cases err with
              | some msg => exact ⟨.rejectedError msg, by simp [callStep, hl, hr, hs]⟩
              | none => exact ⟨.resolved v, by simp [callStep, hl, hr, hs]⟩
        obtain ⟨x, hxl, hxt, hxs⟩ := hstep
        simp only [List.foldl]
        rw [foldl_callStep_inactive myId rest _ hxl hxt, hxs]
        rfl
      · have hstay : callStep myId s e = s := by
          cases e with
          | timeoutFire => simp [triggersCall] at he
          | response rid err v =>
              have hr : ¬ rid = myId := by simpa [triggersCall] using he
              simp [callStep, hl, hr]
        obtain ⟨e', he', htr⟩ := htrig
        rcases List.mem_cons.mp he' with hhead | htail
        · subst hhead
          exact absurd htr he
        · simp only [List.foldl, hstay]
          exact ih s hl ht hs ⟨e', htail, htr⟩

/-- C1: for every pending call of the client-side call operation, exactly
one of resolve/reject executes across the race of a matching response and
the timeout firing: settlements never exceed one, any trigger (timer firing
or matching response) produces exactly one, a response matching the call id
after the timeout fired is silently ignored (the only settlement stays the
timeout rejection), and after a matching response the timer firing can no
longer reject (the only settlement stays the resolution). -/
theorem call_exactly_once_settlement :
    (∀ (myId : String) (events : List CallEvent),
        (runCall myId events).settlements.length ≤ 1) ∧
    (∀ (myId : String) (events : List CallEvent),
        (∃ e ∈ events, triggersCall myId e = true) →
        (runCall myId events).settlements.length = 1) ∧
    (∀ (myId : String) (err : Option String) (v : JsonValue),
        (runCall myId [CallEvent.timeoutFire, CallEvent.response myId err v]).settlements =
          [Settlement.rejectedTimeout]) ∧
    (∀ (myId : String) (v : JsonValue),
        (runCall myId [CallEvent.response myId none v, CallEvent.timeoutFire]).settlements =
          [Settlement.resolved v]) := by
  refine ⟨?_, ?_, ?_, ?_⟩
  · intro myId events
    rcases runCall_ok myId events with ⟨_, _, hs⟩ | ⟨_, _, x, hs⟩ <;> simp [hs]
  · intro myId events htrig
    exact foldl_callStep_trigger myId events initialCallState rfl rfl rfl htrig
  · intro myId err v
    simp [runCall, List.foldl, callStep, initialCallState]
  · intro myId v
    simp [runCall, List.foldl, callStep, initialCallState]

/-- Witness for C1 at a concrete pending call and event sequence. -/
theorem call_exactly_once_settlement_witness :
    (∃ e ∈ [CallEvent.timeoutFire, CallEvent.response "rpc_1_7" none JsonValue.null],
        triggersCall "rpc_1_7" e = true) ∧
    (runCall "rpc_1_7"
        [CallEvent.timeoutFire, CallEvent.response "rpc_1_7" none JsonValue.null]).settlements.length = 1 :=
  ⟨⟨CallEvent.timeoutFire, by simp, rfl⟩,
   call_exactly_once_settlement.2.1 "rpc_1_7"
     [CallEvent.timeoutFire, CallEvent.response "rpc_1_7" none JsonValue.null]
     ⟨CallEvent.timeoutFire, by simp, rfl⟩⟩

/-- The payloads that become `chunk` frames for a producer run. -/
def chunkPayloads : HandlerStreamResult → List JsonValue
  | .thrown _ => []
  | .plain v => [v]
  | .stream items _ => items

/-- The single terminal frame of a producer run. -/
def terminalFrame : HandlerStreamResult → StreamFrame
  | .thrown e => .errorFrame (errorToJsonRpc e)
  | .plain _ => .endFrame
  | .stream _ none => .endFrame
  | .stream _ (some e) => .errorFrame (errorToJsonRpc e)

/-- Whether a producer run exhausted normally (an `end` terminal) rather
than failing (an `error` terminal). -/
def normalExhaustion : HandlerStreamResult → Bool
  | .plain _ => true
  | .stream _ none => true
  | .thrown _ => false
  | .stream _ (some _) => false

/-- Whether a frame is terminal (`end` or `error`) rather than a `chunk`. -/
def isTerminalFrame : StreamFrame → Bool
  | .chunk _ => false
  | .endFrame => true
  | .errorFrame _ => true

theorem drainReader_eq (items : List JsonValue) (pe : Option ThrownValue) :
    drainReader items pe = items.map StreamFrame.chunk ++
      [match pe with
       | none => StreamFrame.endFrame
       | some e => StreamFrame.errorFrame (errorToJsonRpc e)] := by
  induction items with
  | nil => cases pe <;> rfl
  | cons v rest ih => simp [drainReader, ih]

theorem handleStreamRequestFrames_eq (res : HandlerStreamResult) :
    handleStreamRequestFrames res =
      (chunkPayloads res).map StreamFrame.chunk ++ [terminalFrame res] := by
  cases res with
  | thrown e => rfl
  | plain v => rfl
  | stream items pe =>
      cases pe with
      | none =>
          simp [handleStreamRequestFrames, executeStreamHandler, chunkPayloads,
            terminalFrame, drainReader_eq]
      | some e =>
          simp [handleStreamRequestFrames, executeStreamHandler, chunkPayloads,
            terminalFrame, drainReader_eq]

theorem filter_isTerminal_map_chunk (l : List JsonValue) :
    (l.map StreamFrame.chunk).filter isTerminalFrame = [] := by
  induction l with
  | nil => rfl
  | cons v rest ih => simp [isTerminalFrame, ih]

/-- C3: the frame sequence a stream handle receives is zero or more `chunk`
frames in production order followed by exactly one terminal frame, `end`
exactly on normal exhaustion and `error` on a pull exception or handler
failure; filtering the sequence for terminal frames yields that single
terminal, so no `chunk` (and no second terminal) ever follows it.  In
particular a handler that yields one item and then throws emits
`chunk(item)` then `error`. -/
theorem stream_frames_terminal_protocol :
    (∀ res : HandlerStreamResult,
        handleStreamRequestFrames res =
          (chunkPayloads res).map StreamFrame.chunk ++ [terminalFrame res]) ∧
    (∀ res : HandlerStreamResult,
        (handleStreamRequestFrames res).filter isTerminalFrame = [terminalFrame res]) ∧
    (∀ res : HandlerStreamResult, isTerminalFrame (terminalFrame res) = true) ∧
    (∀ res : HandlerStreamResult,
        (terminalFrame res = StreamFrame.endFrame ↔ normalExhaustion res = true)) ∧
    (∀ (v : JsonValue) (e : ThrownValue),
        handleStreamRequestFrames (.stream [v] (some e)) =
          [StreamFrame.chunk v, StreamFrame.errorFrame (errorToJsonRpc e)]) := by
  have hterm : ∀ res : HandlerStreamResult, isTerminalFrame (terminalFrame res) = true := by
    intro res
    cases res with
    | thrown e => rfl
    | plain v => rfl
    | stream items pe => cases pe <;> rfl
  refine ⟨handleStreamRequestFrames_eq, ?_, hterm, ?_, ?_⟩
  · intro res
    rw [handleStreamRequestFrames_eq]
    rw [List.filter_append, filter_isTerminal_map_chunk]
    simp [hterm res]
  · intro res
    cases res with
    | thrown e => simp [terminalFrame, normalExhaustion]
    | plain v => simp [terminalFrame, normalExhaustion]
    | stream items pe => cases pe <;> simp [terminalFrame, normalExhaustion]
  · intro v e
    simp [handleStreamRequestFrames, executeStreamHandler, drainReader]

/-- Witness for C3 at a concrete one-item-then-throw producer run. -/
theorem stream_frames_terminal_protocol_witness :
    handleStreamRequestFrames
        (.stream [JsonValue.num 7] (some (ThrownValue.jsErr "Error" "boom"))) =
      [StreamFrame.chunk (JsonValue.num 7),
       StreamFrame.errorFrame
         { code := -32603, message := "boom", data := some (.str "Error") }] :=
  stream_frames_terminal_protocol.2.2.2.2 (JsonValue.num 7)
    (ThrownValue.jsErr "Error" "boom")

/-- C4: a request for an unregistered method with a correlation id produces
a response whose error code is `-32601` and whose message embeds the method
name; `handleMessage` sends the processed response exactly when the request
carries an id, and sends nothing for notifications — uniformly over every
dispatch outcome. -/
theorem method_not_found_and_notification_suppression :
    (∀ (methods : List (String × StoredMethod)) (fresh : String)
        (req : JsonRpcRequest) (m : String),
        req.method = some m → m ≠ "" → mapGet methods m = none →
        ∃ err : JsonRpcError,
          (processRequest methods fresh req).error = some err ∧
          err.code = -32601 ∧ err.message = "Method not found: " ++ m ∧
          ∃ before after : String, err.message = before ++ m ++ after) ∧
    (∀ (methods : List (String × StoredMethod)) (fresh : String)
        (req : JsonRpcRequest),
        req.id.isSome →
        handleMessage methods fresh req = some (processRequest methods fresh req)) ∧
    (∀ (methods : List (String × StoredMethod)) (fresh : String)
        (req : JsonRpcRequest),
        req.id = none → handleMessage methods fresh req = none) := by
  refine ⟨?_, ?_, ?_⟩
  · intro methods fresh req m hm hne hlk
    refine ⟨errorsMethodNotFound (some m), ?_, rfl, ?_, "Method not found: ", "", ?_⟩
    · simp [processRequest, methodFieldValid, hm, hne, hlk]
    · simp only [errorsMethodNotFound, createJsonRpcError, hne, if_false]
      rw [← String.append_assoc]
      congr 1
    · simp only [errorsMethodNotFound, createJsonRpcError, hne, if_false,
        String.append_empty]
      rw [← String.append_assoc]
      congr 1
  · intro methods fresh req hid
    simp [handleMessage, hid]
  · intro methods fresh req hid
    simp [handleMessage, hid]

/-- Witness for C4 at a concrete unregistered-method request, with and
without a correlation id. -/
theorem method_not_found_and_notification_suppression_witness :
    (∃ err : JsonRpcError,
        (processRequest [] "s1"
            { id := some (.num 1), method := some "doesNotExist", params := none }).error =
          some err ∧
        err.code = -32601 ∧ err.message = "Method not found: " ++ "doesNotExist" ∧
        ∃ before after : String, err.message = before ++ "doesNotExist" ++ after) ∧
    handleMessage [] "s1"
        { id := none, method := some "doesNotExist", params := none } = none :=
  ⟨method_not_found_and_notification_suppression.1 [] "s1"
      { id := some (.num 1), method := some "doesNotExist", params := none }
      "doesNotExist" rfl (by decide) rfl,
   method_not_found_and_notification_suppression.2.2 [] "s1"
      { id := none, method := some "doesNotExist", params := none } rfl⟩

/-- C5: params normalization — absent params give the empty positional
list, array-shaped params pass through unchanged, any other (named,
object-shaped) params are wrapped as the one-element list; and a dispatched
request's handler receives exactly that normalized list: with a registered
non-stream method without validator, the response is the handler's outcome
on `normalizeParams params`. -/
theorem params_normalization :
    normalizeParams none = [] ∧
    (∀ xs : List JsonValue, normalizeParams (some (.arr xs)) = xs) ∧
    (∀ fields : List (String × JsonValue),
        normalizeParams (some (.obj fields)) = [.obj fields]) ∧
    normalizeParams (some (.obj [("a", .num 1), ("b", .num 2)])) =
      [.obj [("a", .num 1), ("b", .num 2)]] ∧
    normalizeParams (some (.arr [.num 1, .num 2])) = [.num 1, .num 2] ∧
    (∀ (m : String) (h : RpcHandler) (i : RpcId) (params : Option JsonValue)
        (fresh : String), m ≠ "" →
        processRequest [(m, { handler := h, validate := none, isStream := false })]
            fresh { id := some i, method := some m, params := params } =
          match h (normalizeParams params) with
          | .ok v => { id := some i, result := some v, error := none }
          | .error e => { id := some i, result := none, error := some (errorToJsonRpc e) }) := by
  refine ⟨rfl, fun xs => rfl, fun fields => rfl, rfl, rfl, ?_⟩
  intro m h i params fresh hne
  simp only [processRequest, methodFieldValid, mapGet, dispatchStored]
  cases hres : h (normalizeParams params) <;> simp [hres, hne]

/-- Witness for C5 at a concrete method table and the two spec example
param shapes. -/
theorem params_normalization_witness :
    processRequest
        [("echo", { handler := fun args => .ok (.arr args), validate := none,
                    isStream := false })]
        "s1" { id := some (.num 9), method := some "echo",
               params := some (.obj [("a", .num 1), ("b", .num 2)]) } =
      { id := some (.num 9),
        result := some (.arr [.obj [("a", .num 1), ("b", .num 2)]]),
        error := none } ∧
    processRequest
        [("echo", { handler := fun args => .ok (.arr args), validate := none,
                    isStream := false })]
        "s1" { id := some (.num 9), method := some "echo",
               params := some (.arr [.num 1, .num 2]) } =
      { id := some (.num 9), result := some (.arr [.num 1, .num 2]),
        error := none } :=
  ⟨params_normalization.2.2.2.2.2 "echo" (fun args => .ok (.arr args)) (.num 9)
      (some (.obj [("a", .num 1), ("b", .num 2)])) "s1" (by decide),
   params_normalization.2.2.2.2.2 "echo" (fun args => .ok (.arr args)) (.num 9)
      (some (.arr [.num 1, .num 2])) "s1" (by decide)⟩

theorem subscribeToEvent_lookup (r : SubRegistry) (e : String) (w : ℕ) :
    mapGet (subscribeToEvent r e w) e =
      some (WinSet.add ((mapGet r e).getD ([] : WinSet)) w) := by
  cases hm : mapGet r e with
  | some s => simp [subscribeToEvent, hm, mapGet_mapSet]
  | none => simp [subscribeToEvent, hm, mapGet_mapSet]

theorem subscribeToEvent_of_mem (r : SubRegistry) (e : String) (w : ℕ) (s : WinSet)
    (hm : mapGet r e = some s) (hw : w ∈ s) : subscribeToEvent r e w = r := by
  simp [subscribeToEvent, hm, WinSet.add_of_mem hw, mapSet_of_mapGet r e s hm]

/-- C6: subscribe and unsubscribe are idempotent — subscribing the same
(event, window) pair twice equals subscribing once and leaves that event's
subscriber count at 1 from an unsubscribed start; unsubscribing a pair not
currently subscribed leaves the registry unchanged; and an unsubscribe that
empties an event's subscriber set deletes the event's entry entirely. -/
theorem subscription_registry_idempotence :
    (∀ (r : SubRegistry) (e : String) (w : ℕ),
        subscribeToEvent (subscribeToEvent r e w) e w = subscribeToEvent r e w) ∧
    (∀ (r : SubRegistry) (e : String) (w : ℕ), mapGet r e = none →
        mapGet (subscribeToEvent (subscribeToEvent r e w) e w) e = some [w] ∧
        (mapGet (subscribeToEvent (subscribeToEvent r e w) e w) e).map WinSet.size =
          some 1) ∧
    (∀ (r : SubRegistry) (e : String) (w : ℕ),
        (mapGet r e = none ∨ ∃ s : WinSet, mapGet r e = some s ∧ w ∉ s ∧ s ≠ []) →
        unsubscribeFromEvent r e w = r) ∧
    (∀ (r : SubRegistry) (e : String) (w : ℕ) (s : WinSet),
        mapGet r e = some s → (WinSet.del s w).size = 0 →
        mapGet (unsubscribeFromEvent r e w) e = none) := by
  have hidem : ∀ (r : SubRegistry) (e : String) (w : ℕ),
      subscribeToEvent (subscribeToEvent r e w) e w = subscribeToEvent r e w :=
    fun r e w =>
      subscribeToEvent_of_mem _ e w _ (subscribeToEvent_lookup r e w)
        (WinSet.mem_add_self _ w)
  refine ⟨hidem, ?_, ?_, ?_⟩
  · intro r e w hm
    have h1 : mapGet (subscribeToEvent (subscribeToEvent r e w) e w) e = some [w] := by
      rw [hidem, subscribeToEvent_lookup, hm]
      simp [WinSet.add]
    exact ⟨h1, by simp [h1, WinSet.size]⟩
  · intro r e w h
    rcases h with hm | ⟨s, hm, hw, hne⟩
    · simp [unsubscribeFromEvent, hm]
    · have hdel : WinSet.del s w = s := WinSet.del_of_not_mem hw
      have hsz : ¬ WinSet.size s = 0 := by
        simpa [WinSet.size, List.length_eq_zero] using hne
      simp [unsubscribeFromEvent, hm, hdel, hsz, mapSet_of_mapGet r e s hm]
  · intro r e w s hm hempty
    simp [unsubscribeFromEvent, hm, hempty, mapGet_mapDelete]

/-- Witness for C6 at a concrete registry: double subscribe of window 3 to
"evt", a no-op unsubscribe of window 4, and the entry deletion when the last
subscriber leaves. -/
theorem subscription_registry_idempotence_witness :
    mapGet (subscribeToEvent (subscribeToEvent [] "evt" 3) "evt" 3) "evt" = some [3] ∧
    unsubscribeFromEvent [("evt", [3])] "evt" 4 = [("evt", [3])] ∧
    mapGet (unsubscribeFromEvent [("evt", [3])] "evt" 3) "evt" = none :=
  ⟨(subscription_registry_idempotence.2.1 [] "evt" 3 rfl).1,
   subscription_registry_idempotence.2.2.1 [("evt", [3])] "evt" 4
     (Or.inr ⟨[3], rfl, by decide, by decide⟩),
   subscription_registry_idempotence.2.2.2 [("evt", [3])] "evt" 3 [3] rfl (by decide)⟩

/-- C7: publish sends nothing when no subscriber set exists for the event
name, and otherwise sends the event frame, within the publish call, to a
connected client exactly when that client's window id is in the event's
subscriber set. -/
theorem publish_fanout :
    (∀ (r : SubRegistry) (connected : List ℕ) (e : String) (d : Option JsonValue),
        mapGet r e = none → publish r connected e d = []) ∧
    (∀ (r : SubRegistry) (connected : List ℕ) (e : String) (d : Option JsonValue)
        (s : WinSet) (c : ℕ), mapGet r e = some s →
        ((c, { type := "event", eventName := e, data := d }) ∈ publish r connected e d ↔
          c ∈ connected ∧ c ∈ s)) := by
  refine ⟨?_, ?_⟩
  · intro r connected e d hm
    simp [publish, hm]
  · intro r connected e d s c hm
    by_cases hsz : WinSet.size s = 0
    · have hnil : s = [] := by simpa [WinSet.size, List.length_eq_zero] using hsz
      simp [publish, hm, hsz, hnil, WinSet.size]
    · simp [publish, hm, hsz, List.mem_map, List.mem_filter, WinSet.hasId, and_comm]

/-- Witness for C7: window 1 subscribed to "evt" receives the frame, the
connected but unsubscribed window 2 does not, and publishing an event
without a subscriber set sends nothing. -/
theorem publish_fanout_witness :
    ((1, { type := "event", eventName := "evt", data := none }) ∈
        publish [("evt", [1])] [1, 2] "evt" none) ∧
    ¬ ((2, { type := "event", eventName := "evt", data := none }) ∈
        publish [("evt", [1])] [1, 2] "evt" none) ∧
    publish [] [1, 2] "evt" none = [] :=
  ⟨(publish_fanout.2 [("evt", [1])] [1, 2] "evt" none [1] 1 rfl).mpr
      ⟨by decide, by decide⟩,
   fun h =>
     absurd ((publish_fanout.2 [("evt", [1])] [1, 2] "evt" none [1] 2 rfl).mp h)
       (by decide),
   publish_fanout.1 [] [1, 2] "evt" none rfl⟩

/-- Counterexample to C8: a call issued with the explicit non-positive
timeout 0 arms the renderer timer with 0 ms, not the 30000 ms default — the
destructuring default of `createRpcClient` applies only to an absent
option. -/
theorem default_timeout_counterexample :
    rendererTimerDuration (some 0) = 0 ∧ rendererTimerDuration (some 0) ≠ 30000 := by
  decide

/-- C8 as amended: the 30000 ms default timeout applies exactly when the
timeout option is absent; any explicitly provided value, including a
non-positive one, is used as-is for the pending call's timer. -/
theorem default_timeout_amended :
    rendererTimerDuration none = 30000 ∧
    ∀ t : Int, rendererTimerDuration (some t) = t :=
  ⟨rfl, fun _ => rfl⟩

/-- Counterexample to C9: the health-check method is registered at
construction, but `dispose()` on a listening server clears the method table,
so `has("__rpc_health__")` does not survive every operation. -/
theorem health_method_dispose_counterexample :
    newRpcServer.hasMethod HEALTH_CHECK_METHOD = true ∧
    (RpcServer.dispose (RpcServer.listen newRpcServer)).hasMethod
        HEALTH_CHECK_METHOD = false :=
  ⟨rfl, rfl⟩

/-- C9 as amended: the health-check method is registered by the constructor
with a handler returning `true`, and `has("__rpc_health__")` is preserved by
`register`, `registerStream`, `unregister` of any other name, `listen`,
subscription changes, and `dispose` before `listen`; `dispose` on a
listening server clears the whole method table as part of full teardown and
removes it. -/
theorem health_method_amended :
    newRpcServer.hasMethod HEALTH_CHECK_METHOD = true ∧
    (∀ args : List JsonValue,
        (mapGet newRpcServer.methods HEALTH_CHECK_METHOD).map
            (fun sm => sm.handler args) =
          some (Except.ok (JsonValue.bool true))) ∧
    (∀ (s : RpcServer) (n : String) (h : RpcHandler) (v : Option RpcValidator),
        s.hasMethod HEALTH_CHECK_METHOD = true →
        (s.register n h v).hasMethod HEALTH_CHECK_METHOD = true) ∧
    (∀ (s : RpcServer) (n : String) (h : RpcHandler) (v : Option RpcValidator),
        s.hasMethod HEALTH_CHECK_METHOD = true →
        (s.registerStream n h v).hasMethod HEALTH_CHECK_METHOD = true) ∧
    (∀ (s : RpcServer) (n : String), n ≠ HEALTH_CHECK_METHOD →
        s.hasMethod HEALTH_CHECK_METHOD = true →
        (s.unregister n).hasMethod HEALTH_CHECK_METHOD = true) ∧
    (∀ s : RpcServer, s.hasMethod HEALTH_CHECK_METHOD = true →
        s.listen.hasMethod HEALTH_CHECK_METHOD = true) ∧
    (∀ (s : RpcServer) (e : String) (w : ℕ),
        s.hasMethod HEALTH_CHECK_METHOD = true →
        (s.subscribe e w).hasMethod HEALTH_CHECK_METHOD = true ∧
        (s.unsubscribe e w).hasMethod HEALTH_CHECK_METHOD = true) ∧
    (∀ s : RpcServer, s.isListening = false →
        s.hasMethod HEALTH_CHECK_METHOD = true →
        s.dispose.hasMethod HEALTH_CHECK_METHOD = true) := by
  refine ⟨rfl, fun args => rfl, ?_, ?_, ?_, ?_, ?_, ?_⟩
  · intro s n h v hs
    by_cases hn : n = HEALTH_CHECK_METHOD <;>
      simp [RpcServer.register, RpcServer.hasMethod, mapGet_mapSet, hn] at hs ⊢ <;>
      exact hs
  · intro s n h v hs
    by_cases hn : n = HEALTH_CHECK_METHOD <;>
      simp [RpcServer.registerStream, RpcServer.hasMethod, mapGet_mapSet, hn] at hs ⊢ <;>
      exact hs
  · intro s n hn hs
    have hne : HEALTH_CHECK_METHOD ≠ n := fun h => hn h.symm
    simpa [RpcServer.unregister, RpcServer.hasMethod, mapGet_mapDelete, hne] using hs
  · intro s hs
    by_cases hl : s.isListening <;> simp [RpcServer.listen, hl] <;> exact hs
  · intro s e w hs
    exact ⟨by simpa [RpcServer.subscribe, RpcServer.hasMethod] using hs,
           by simpa [RpcServer.unsubscribe, RpcServer.hasMethod] using hs⟩
  · intro s hl hs
    simpa [RpcServer.dispose, hl] using hs

/-- Witness for the amended C9 at a fresh server: registering another
method and unregistering a non-health name both keep the health method. -/
theorem health_method_amended_witness :
    (newRpcServer.register "add" (fun _ => Except.ok JsonValue.null) none).hasMethod
        HEALTH_CHECK_METHOD = true ∧
    (newRpcServer.unregister "add").hasMethod HEALTH_CHECK_METHOD = true :=
  ⟨health_method_amended.2.2.1 newRpcServer "add" (fun _ => Except.ok JsonValue.null)
      none rfl,
   health_method_amended.2.2.2.2.1 newRpcServer "add" (by decide) rfl⟩

theorem preloadCallOutcome_time_le (method : String) (arrival : Option ℕ)
    (reply : WireReply) : (preloadCallOutcome method arrival reply).1 ≤ 30000 := by
  cases arrival with
  | none => simp [preloadCallOutcome]
  | some a =>
      by_cases h : a < 30000 <;> simp [preloadCallOutcome, h]
      exact le_of_lt h

theorem preloadCallOutcome_not_rpcTimeout (method : String) (arrival : Option ℕ)
    (reply : WireReply) (e : RpcTimeoutError) :
    (preloadCallOutcome method arrival reply).2 ≠ LayeredOutcome.rpcTimeout e := by
  cases arrival with
  | none => simp [preloadCallOutcome]
  | some a =>
      by_cases h : a < 30000
      · cases reply <;> simp [preloadCallOutcome, h]
      · simp [preloadCallOutcome, h]

/-- C10: a call through the preload-exposed API races a fixed 30000 ms
timer regardless of the renderer-layer timeout: with no matching response
inside 30000 ms the preload promise rejects at 30000 ms with the plain
`Error` whose message is `RPC timeout: <method>` (not an `RpcTimeoutError`),
and a renderer-configured timeout larger than 30000 ms never takes effect —
the layered outcome is never an `RpcTimeoutError`. -/
theorem preload_fixed_timeout :
    (∀ (method : String) (reply : WireReply),
        preloadCallOutcome method none reply =
          (30000, LayeredOutcome.plainError ("RPC timeout: " ++ method))) ∧
    (∀ t : ℕ, 30000 < t →
        ∀ (method : String) (arrival : Option ℕ) (reply : WireReply),
          (∀ e : RpcTimeoutError,
              rendererCallOutcome t method arrival reply ≠ LayeredOutcome.rpcTimeout e) ∧
          ((arrival = none ∨ ∃ a : ℕ, arrival = some a ∧ 30000 ≤ a) →
              rendererCallOutcome t method arrival reply =
                LayeredOutcome.plainError ("RPC timeout: " ++ method))) := by
  refine ⟨fun method reply => rfl, ?_⟩
  intro t ht method arrival reply
  have hlt : (preloadCallOutcome method arrival reply).1 < t :=
    lt_of_le_of_lt (preloadCallOutcome_time_le method arrival reply) ht
  constructor
  · intro e
    simp only [rendererCallOutcome, if_pos hlt]
    exact preloadCallOutcome_not_rpcTimeout method arrival reply e
  · intro harr
    simp only [rendererCallOutcome, if_pos hlt]
    rcases harr with hnone | ⟨a, ha, hge⟩
    · simp [hnone, preloadCallOutcome]
    · have hna : ¬ a < 30000 := not_lt.mpr hge
      simp [ha, preloadCallOutcome, hna]

/-- Witness for C10 at a 60000 ms renderer timeout and a call that never
receives its response. -/
theorem preload_fixed_timeout_witness :
    rendererCallOutcome 60000 "getData" none (WireReply.result JsonValue.null) =
      LayeredOutcome.plainError ("RPC timeout: " ++ "getData") :=
  (preload_fixed_timeout.2 60000 (by decide) "getData" none
      (WireReply.result JsonValue.null)).2 (Or.inl rfl)

/-- C2 (spec-modelled, the engine's source is not under `src/`): on the
connection-loss signal every currently pending entry settles failure with a
Connection error (`RpcConnectionError`), as one bulk operation — the
rejection list covers the whole pending table, one entry each, and the
table is left empty. -/
theorem connection_loss_bulk_rejection :
    ∀ (msg : String) (code : Option String) (pending : List String),
      (connectionLost msg code pending).2 = [] ∧
      (connectionLost msg code pending).1.length = pending.length ∧
      (∀ cid ∈ pending,
          (cid, mkRpcConnectionError msg code) ∈ (connectionLost msg code pending).1) ∧
      (∀ p ∈ (connectionLost msg code pending).1,
          p.2.name = "RpcConnectionError" ∧ p.1 ∈ pending) := by
  intro msg code pending
  refine ⟨rfl, by simp [connectionLost], ?_, ?_⟩
  · intro cid hc
    simp only [connectionLost, List.mem_map]
    exact ⟨cid, hc, rfl⟩
  · intro p hp
    simp only [connectionLost, List.mem_map] at hp
    obtain ⟨cid, hc, hpe⟩ := hp
    subst hpe
    exact ⟨rfl, hc⟩

/-- Witness for C2 at one concrete pending call. -/
theorem connection_loss_bulk_rejection_witness :
    ("rpc_1_2", mkRpcConnectionError "Connection to main process lost" none) ∈
        (connectionLost "Connection to main process lost" none ["rpc_1_2"]).1 ∧
    (connectionLost "Connection to main process lost" none ["rpc_1_2"]).2 = [] :=
  ⟨(connection_loss_bulk_rejection "Connection to main process lost" none
        ["rpc_1_2"]).2.2.1 "rpc_1_2" (by decide),
   (connection_loss_bulk_rejection "Connection to main process lost" none
        ["rpc_1_2"]).1⟩
